import Mathlib

/-!
Verification development for the Daily-Greeting-Generator repository.

The Python sources are embedded shallowly:
* strings are `List Char` (`Str`);
* Python dicts built by `build_model` are represented by the list of
  (context, letter) occurrences they record, with decidable membership;
* randomness (`random.choices`, `random.randint`, `random.lognormvariate`,
  oracle responses) is threaded explicitly as function arguments;
* Python exceptions are `Except PyErr`, with one `PyErr` constructor per
  raise site relevant to the development;
* float arithmetic (`** 0.5`) is modelled over `ℚ` via an explicit
  square-root parameter `s : ℚ → ℚ`; the concrete instance `sqrtQ` is the
  exact rational square root, which agrees with Python's float power on
  every value arising in the concrete computations below (all of them are
  `0` or `1`).
-/

namespace DailyGreeting

/-- Python strings, embedded as lists of characters. -/
abbrev Str := List Char

/-- Exceptions raised by the embedded Python code, one constructor per
raise site that this development reasons about. -/
inductive PyErr where
  /-- `random.choices` with a non-positive weight total (ValueError). -/
  | choicesZeroTotal : PyErr
  /-- `model[context]` lookup on a missing key in `generate_word` (KeyError). -/
  | modelKeyError : PyErr
  /-- `max(distribution.keys())` on an empty histogram in
  `length_distribution` (ValueError). -/
  | maxOfEmpty : PyErr
  /-- `literature['jabberwocky']` when `literature` is `None`
  (TypeError, pipeline.py line 348). -/
  | noneSubscript : PyErr
  /-- `literature['jabberwocky']` when the dict lacks the key
  (KeyError, pipeline.py line 348). -/
  | jabberwockyKeyError : PyErr
  /-- `enumerate(album_data['songs'])` when the songs field is `None`
  (TypeError, formatters.py line 89). -/
  | songsNoneError : PyErr
  /-- `albums[selection]` with an out-of-range index
  (IndexError, pipeline.py line 215). -/
  | albumIndexError : PyErr
deriving DecidableEq, Repr

/-- Equality of embedded Python outcomes is decidable, so concrete runs
can be checked by evaluation. -/
instance instDecEqExcept {ε α : Type} [DecidableEq ε] [DecidableEq α] :
    DecidableEq (Except ε α)
  | .ok a, .ok b =>
    if h : a = b then .isTrue (by rw [h])
    else .isFalse (by intro hc; cases hc; exact h rfl)
  | .ok _, .error _ => .isFalse (by intro hc; cases hc)
  | .error _, .ok _ => .isFalse (by intro hc; cases hc)
  | .error e, .error f =>
    if h : e = f then .isTrue (by rw [h])
    else .isFalse (by intro hc; cases hc; exact h rfl)

namespace Jabberwocky

/-- `INITIATOR = '#'` (jabberwocky.py line 16). -/
def INITIATOR : Char := '#'

/-- `TERMINATOR = '$'` (jabberwocky.py line 17). -/
def TERMINATOR : Char := '$'

/-- `CONTEXT_SIZE = 2` (jabberwocky.py line 18). -/
def CONTEXT_SIZE : Nat := 2

/-- Python slice `l[-n:]`: the last `n` characters, the whole list when it
is shorter than `n`. -/
def lastN (n : Nat) (l : Str) : Str := l.drop (l.length - n)

/-- `word = INITIATOR + word + TERMINATOR` (build_model, line 94). -/
def paddedWord (w : Str) : Str := INITIATOR :: (w ++ [TERMINATOR])

/-- The (context, letter) occurrences recorded by the loop
`for i in range(1, len(word))` of `build_model` for a single word:
context is `word[:i][-CONTEXT_SIZE:]`, letter is `word[i]`. -/
def wordPairs (w : Str) : List (Str × Char) :=
  (List.range' 1 ((paddedWord w).length - 1)).map
    (fun i => (lastN CONTEXT_SIZE ((paddedWord w).take i), (paddedWord w).getD i ' '))

/-- All (context, letter) occurrences recorded by `build_model wordlist`. -/
def modelPairs (wl : List Str) : List (Str × Char) :=
  (wl.map wordPairs).flatten

/-- `context in model.keys()`: the context has at least one recorded letter. -/
def hasKey (wl : List Str) (c : Str) : Bool :=
  (modelPairs wl).any (fun p => p.1 == c)

/-- The letters of `model[c]` in first-occurrence (dict insertion) order. -/
def entryLetters (wl : List Str) (c : Str) : List Char :=
  (((modelPairs wl).filter (fun p => p.1 == c)).map Prod.snd).dedup

/-- `model[c][l]`: the occurrence count recorded for letter `l` in context `c`. -/
def pairCount (wl : List Str) (c : Str) (l : Char) : Nat :=
  ((modelPairs wl).filter (fun p => p.1 == c && p.2 == l)).length

/-- `model[c]` as the ordered association list of (letter, count). -/
def modelEntry (wl : List Str) (c : Str) : List (Char × Nat) :=
  (entryLetters wl c).map (fun l => (l, pairCount wl c l))

/-- `max(distribution.keys())` for the length histogram: the largest word
length in the wordlist (0 for an empty wordlist, where Python would raise). -/
def maxWordLen (wl : List Str) : Nat :=
  (wl.map List.length).foldr max 0

/-- `distribution[n]`: how many wordlist entries have length `n`. -/
def lenCount (wl : List Str) (n : Nat) : Nat :=
  (wl.filter (fun w => w.length = n)).length

/-- Exact square root on `ℚ`, zero on non-squares.  Stands in for Python's
float `** 0.5` in `length_distribution`; the two agree on every input used
by the concrete computations in this file (`1/1`, whose square root is
exact in both systems). -/
def sqrtQ (q : ℚ) : ℚ :=
  if (Nat.sqrt q.num.natAbs) ^ 2 = q.num.natAbs ∧ (Nat.sqrt q.den) ^ 2 = q.den
  then (Nat.sqrt q.num.natAbs : ℚ) / (Nat.sqrt q.den : ℚ)
  else 0

/-- The loop of `length_distribution`: `cumulative = [0]`, then for
`i in range(1, max+1)` append the previous value plus
`(distribution[i] / sum(distribution.values())) ** 0.5` when length `i`
occurs.  `s` models the float square root, `wl.length` is
`sum(distribution.values())`. -/
def cumBuild (s : ℚ → ℚ) (wl : List Str) : Nat → List ℚ
  | 0 => [0]
  | i + 1 =>
    let prev := cumBuild s wl i
    prev ++ [prev.getLastD 0 +
      (if lenCount wl (i + 1) ≠ 0
       then s ((lenCount wl (i + 1) : ℚ) / (wl.length : ℚ)) else 0)]

/-- `length_distribution(wordlist)` (jabberwocky.py lines 111-143). -/
def length_distribution (s : ℚ → ℚ) (wl : List Str) : List ℚ :=
  cumBuild s wl (maxWordLen wl)

/-- The terminator re-weighting factor of `generate_word` (lines 166-169):
`distribution[len(word)]` when `len(word) < len(distribution)`, else
`distribution[-1]`. -/
def termFactor (dist : List ℚ) (m : Nat) : ℚ :=
  if m < dist.length then dist.getD m 0 else dist.getLastD 0

/-- The weight list handed to `random.choices` at state `word` of the
generation loop: `model[word[-2:]]`, with the terminator's weight
multiplied by `termFactor dist (len word)` (lines 162-170). -/
def weightsAt (s : ℚ → ℚ) (wl : List Str) (word : Str) : List (Char × ℚ) :=
  (modelEntry wl (lastN CONTEXT_SIZE word)).map
    (fun p => if p.1 = TERMINATOR
      then (p.1, (p.2 : ℚ) * termFactor (length_distribution s wl) word.length)
      else (p.1, (p.2 : ℚ)))

/-- The selection made by `random.choices(list(weights.keys()),
list(weights.values()))` for a given random draw `r`: the first key whose
cumulative weight interval contains `r` (keys of weight zero occupy an
empty interval and are never chosen; a draw past the total picks the last
key, which for `random.random()*total < total` cannot happen). -/
def pickCum : List (Char × ℚ) → ℚ → Char
  | [], _ => TERMINATOR
  | [(c, _)], _ => c
  | (c, w) :: p :: rest, r => if r < w then c else pickCum (p :: rest) (r - w)

/-- `random.choices` on the weight table: raises ValueError when the weight
total is not positive, otherwise picks per the draw `r`. -/
def choosePy (ws : List (Char × ℚ)) (r : ℚ) : Except PyErr Char :=
  if (ws.map Prod.snd).sum ≤ 0 then .error .choicesZeroTotal
  else .ok (pickCum ws r)

/-- `word.strip(INITIATOR + TERMINATOR)`: remove every leading and trailing
sentinel character. -/
def stripSentinels (word : Str) : Str :=
  ((word.dropWhile (fun c => c = INITIATOR ∨ c = TERMINATOR)).reverse.dropWhile
    (fun c => c = INITIATOR ∨ c = TERMINATOR)).reverse

/-- One execution of the loop body of `generate_word` from state `word`
(the string built so far): look up `model[word[-2:]]` (KeyError when the
context is missing), re-weight the terminator, and sample with draw `r`. -/
def genStep (s : ℚ → ℚ) (wl : List Str) (word : Str) (r : ℚ) : Except PyErr Str :=
  if hasKey wl (lastN CONTEXT_SIZE word) then
    match choosePy (weightsAt s wl word) r with
    | .error e => .error e
    | .ok c => .ok (word ++ [c])
  else .error .modelKeyError

/-- The loop of `generate_word`, driven by the list `rs` of random draws
(one per iteration); returns `none` when the draws are exhausted with the
loop still running, and the stripped word once the last character is the
terminator. -/
def genLoop (s : ℚ → ℚ) (wl : List Str) : List ℚ → Str → Except PyErr (Option Str)
  | [], word =>
    if word.getLast? = some TERMINATOR then .ok (some (stripSentinels word))
    else .ok none
  | r :: rest, word =>
    if word.getLast? = some TERMINATOR then .ok (some (stripSentinels word))
    else match genStep s wl word r with
      | .error e => .error e
      | .ok word' => genLoop s wl rest word'

/-- `generate_word(model, distribution)` (jabberwocky.py lines 146-172),
starting from `word = INITIATOR` and consuming one random draw per loop
iteration. -/
def generate_word (s : ℚ → ℚ) (wl : List Str) (rs : List ℚ) : Except PyErr (Option Str) :=
  genLoop s wl rs [INITIATOR]

/-- The states the generation loop of `generate_word` can be in: the
initial string `"#"`, and any non-terminated state extended by a letter
recorded for the current two-character context.  This over-approximates
the weighted sampler (every positive-probability choice is an
`entryLetters` member). -/
inductive Reach (wl : List Str) : Str → Prop where
  | start : Reach wl [INITIATOR]
  | step (word : Str) (l : Char) : Reach wl word →
      word.getLast? ≠ some TERMINATOR →
      l ∈ entryLetters wl (lastN CONTEXT_SIZE word) →
      Reach wl (word ++ [l])

/-- The collection loop of `generate_words` (jabberwocky.py lines 196-204):
`cands` is the stream of words produced by successive `generate_word`
calls; a candidate already in the wordlist or already collected is
discarded; `none` models the loop still running when the stream is
exhausted (the Python loop has no bound). -/
def collectLoop (wl : List Str) (count : Nat) : List Str → List Str → Option (List Str)
  | cands, acc =>
    if count ≤ acc.length then some acc
    else match cands with
      | [] => none
      | w :: rest =>
        if w ∈ wl ∨ w ∈ acc then collectLoop wl count rest acc
        else collectLoop wl count rest (acc ++ [w])

/-- `generate_words(io_manager, count)` (jabberwocky.py lines 175-206).
`wordlist` is the result of `parse_words` (`none` when no book is stored,
in which case the function returns `None`); a stored book whose parsed
wordlist is empty makes `length_distribution` raise ValueError on
`max(distribution.keys())`; otherwise the collection loop runs on the
stream of generated candidates. -/
def generate_words (wordlist : Option (List Str)) (count : Nat) (cands : List Str) :
    Except PyErr (Option (List Str)) :=
  match wordlist with
  | none => .ok none
  | some [] => .error .maxOfEmpty
  | some wl => .ok (collectLoop wl count cands [])

end Jabberwocky

namespace Pipeline

/-- The characters Python's `str.strip()` and the regex class `\s` treat as
whitespace (restricted to ASCII; the oracle markers of interest are ASCII). -/
def pySpace (c : Char) : Bool :=
  c = ' ' ∨ c = '\t' ∨ c = '\n' ∨ c = '\r' ∨ c = Char.ofNat 11 ∨ c = Char.ofNat 12

/-- Python `s.strip()`: drop whitespace from both ends. -/
def stripPy (s : Str) : Str :=
  ((s.dropWhile pySpace).reverse.dropWhile pySpace).reverse

/-- Python `s.upper()` (character-wise; length-preserving on the ASCII
markers this file reasons about). -/
def upperStr (s : Str) : Str := s.map Char.toUpper

/-- Whether `pat` starts the string `s`. -/
def isPre : Str → Str → Bool
  | [], _ => true
  | _ :: _, [] => false
  | a :: as, b :: bs => a == b && isPre as bs

/-- Python `s.find(pat)` as an `Option`: the least index at which `pat`
occurs in `s`. -/
def findSub (pat : Str) : Str → Option Nat
  | [] => if pat.isEmpty then some 0 else none
  | c :: rest =>
    if isPre pat (c :: rest) then some 0
    else (findSub pat rest).map (· + 1)

/-- Python `pat in s`: substring containment. -/
def containsSub (pat s : Str) : Bool := (findSub pat s).isSome

/-- `int` of a non-empty decimal digit string. -/
def natOfDigits (ds : Str) : Nat :=
  ds.foldl (fun n c => 10 * n + (c.toNat - '0'.toNat)) 0

/-- Whether the regex `VERDICT:\s*(\d+)` matches at the head of `s`; the
captured group is the maximal digit run after the literal marker and any
whitespace. -/
def verdictHere (s : Str) : Option Nat :=
  if isPre ("VERDICT:".toList) s then
    let digits := ((s.drop 8).dropWhile pySpace).takeWhile Char.isDigit
    if digits.isEmpty then none else some (natOfDigits digits)
  else none

/-- `re.search(r'VERDICT:\s*(\d+)', s)` (pipeline.py line 202): the number
captured at the leftmost position where the whole pattern matches. -/
def parseVerdictNum : Str → Option Nat
  | [] => none
  | c :: t =>
    match verdictHere (c :: t) with
    | some n => some n
    | none => parseVerdictNum t

/-- `"VERDICT: YES" in evaluation.upper()` (pipeline.py line 67). -/
def affirm (s : Str) : Bool := containsSub ("VERDICT: YES".toList) (upperStr s)

/-- Remove one layer of enclosing double quotes when both ends carry one
(pipeline.py lines 387-388, Python `s[1:-1]`). -/
def unquoteOnce (s : Str) : Str :=
  if s.head? = some '"' ∧ s.getLast? = some '"' then (s.drop 1).dropLast else s

/-- The greeting-extraction step of `synthesize_materials` (pipeline.py
lines 382-392): find `GREETING:` case-insensitively, take everything after
it, strip whitespace and one layer of quotes; without the marker, strip
the full response. -/
def extract_greeting (g : Str) : Str :=
  match findSub ("GREETING:".toList) (upperStr g) with
  | some i => unquoteOnce (stripPy (g.drop (i + 9)))
  | none => stripPy g

/-- `MESSAGE_MEAN_LEN = 140` (pipeline.py line 23). -/
def MESSAGE_MEAN_LEN : Nat := 140

/-- Weather data as consumed by `format_weather`; the three rendered
forecast lines stand for the nested numeric fields, whose string rendering
is irrelevant to every claim. -/
structure Weather where
  overnight : Str
  sunriseNow : Str
  today : Str

/-- A literature record as it flows through the pipeline.  `jabberwocky =
some ws` models the dict containing the `'jabberwocky'` key (added only by
`select_words`); `none` models the key being absent. -/
structure Literature where
  title : Str
  author : Str
  excerpt : Str
  jabberwocky : Option (List Str)

/-- A fetched excerpt from the literature collaborator: display fields
plus nothing else — in particular no `'jabberwocky'` key. -/
structure LitFetch where
  title : Str
  author : Str
  excerpt : Str

/-- The literature record built from a fetch: the fetched fields, with the
`'jabberwocky'` key absent. -/
def mkLit (f : LitFetch) : Literature :=
  ⟨f.title, f.author, f.excerpt, none⟩

/-- An album as returned by `get_navidrome_albums`. -/
structure AlbumSel where
  name : Str
  artist : Str
  year : Nat
  genres : List Str
deriving DecidableEq, Repr

/-- The detail record from `get_album_details`: `songs` may be missing
(`dict.get`), `coverart` may be absent/empty (falsy). -/
structure AlbumDetails where
  songs : Option (List Str)
  coverart : Option Str

/-- An album after `analyze_album_art` has run: the selection fields plus
the `'songs'` and `'coverart'` keys it installs. -/
structure AlbumFull where
  sel : AlbumSel
  songs : Option (List Str)
  coverart : Option Str

/-- `str(n)` for the numbered lists and length bounds. -/
def natToStr (n : Nat) : Str := (toString n).toList

/-- Python `sep.join(xs)`. -/
def joinStr (sep : Str) (xs : List Str) : Str := List.intercalate sep xs

/-- `format_weather` (formatters.py lines 10-30), with the three forecast
lines pre-rendered in the `Weather` record. -/
def format_weather (w : Option Weather) : Str :=
  match w with
  | none => "WEATHER DATA: Not available".toList
  | some w =>
    "WEATHER DATA:\n".toList ++ w.overnight ++ "\n".toList ++ w.sunriseNow
      ++ "\n".toList ++ w.today

/-- `format_literature` (formatters.py lines 33-51); the author line
(name plus optional year range) is pre-rendered in the record. -/
def format_literature (l : Option Literature) : Str :=
  match l with
  | none => "LITERATURE EXCERPT: Not available".toList
  | some l =>
    "LITERATURE EXCERPT: \"".toList ++ l.title ++ "\" by ".toList ++ l.author
      ++ ":\n\n".toList ++ l.excerpt

/-- `format_albums` (formatters.py lines 54-69): numbered album list. -/
def format_albums (albums : List AlbumSel) : Str :=
  "ALBUMS:\n".toList ++ joinStr "\n".toList (albums.enum.map (fun p =>
    "[".toList ++ natToStr (p.1 + 1) ++ "] \"".toList ++ p.2.name
      ++ "\" by ".toList ++ p.2.artist ++ " (".toList ++ natToStr p.2.year
      ++ ") - Genres: ".toList
      ++ (if p.2.genres = [] then "Unknown genre".toList
          else joinStr ", ".toList p.2.genres)))

/-- `format_album` (formatters.py lines 72-100).  Iterating
`album_data['songs']` raises TypeError when that field is `None` (set so by
`analyze_album_art` after a failed detail fetch). -/
def format_album (a : Option AlbumFull) : Except PyErr Str :=
  match a with
  | none => .ok "No album data available.".toList
  | some a =>
    match a.songs with
    | none => .error .songsNoneError
    | some songs =>
      let genres := if a.sel.genres = [] then "Unknown genre".toList
                    else joinStr ", ".toList a.sel.genres
      let tracks := joinStr "\n".toList (songs.enum.map (fun p =>
        natToStr (p.1 + 1) ++ ". ".toList ++ p.2))
      let base := "SELECTED ALBUM: \"".toList ++ a.sel.name ++ "\" by ".toList
        ++ a.sel.artist ++ " (".toList ++ natToStr a.sel.year
        ++ ")\nGenres: ".toList ++ genres ++ "\nTracklist:\n".toList ++ tracks
      .ok (match a.coverart with
        | none => base
        | some art => base ++ "\nCover art description:\n".toList ++ art)

/-- Modelled from the spec: `format_jabberwocky` is imported by
pipeline.py from `formatters` but is absent from the provided sources; the
spec and the call sites describe the generated words being presented as a
numbered list, so it is rendered here as one word per numbered line. -/
def format_jabberwocky (ws : List Str) : Str :=
  joinStr "\n".toList (ws.enum.map (fun p =>
    natToStr (p.1 + 1) ++ ". ".toList ++ p.2))

/-- One attempt of the literature-validation loop: the fetch result from
`get_random_literature` (the excerpt data together with the full source
text) and the oracle's response to that attempt's evaluation prompt
(`none` for a transport failure). -/
structure LitAttempt where
  fetch : Option (LitFetch × Str)
  response : Option Str

/-- What `validate_literature` produces: its return value, the number of
`send_ollama_request` calls it made, and the texts it passed to
`io_manager.save_book`. -/
structure LitResult where
  result : Option Literature
  oracleCalls : Nat
  saved : List Str

/-- `validate_literature(io_manager, max_attempts)` (pipeline.py lines
28-75).  The list argument carries one entry per loop iteration, so its
length is the attempt budget.  A failed fetch skips the oracle; an oracle
transport failure returns `None` at once; an affirmative verdict saves the
source text and returns the excerpt; a negative verdict continues. -/
def validate_literature : List LitAttempt → LitResult
  | [] => ⟨none, 0, []⟩
  | a :: rest =>
    match a.fetch with
    | none => validate_literature rest
    | some (f, text) =>
      match a.response with
      | none => ⟨none, 1, []⟩
      | some ev =>
        if affirm ev then ⟨some (mkLit f), 1, [text]⟩
        else
          let r := validate_literature rest
          ⟨r.result, r.oracleCalls + 1, r.saved⟩

/-- `select_words(io_manager, literature, greeting_length)` (pipeline.py
lines 78-145).  `wordlist`/`cands` feed the embedded `generate_words`,
`oracleResp` is the selection response, and `fallbackSample` models the
`random.sample` draw used when no response line matches a candidate.  The
result is the literature record as left by the call: unchanged on every
skip path, and with the `'jabberwocky'` key installed on success. -/
def select_words (literature : Option Literature) (wordlist : Option (List Str))
    (cands : List Str) (oracleResp : Option Str) (fallbackSample : List Str)
    (greeting_length : Nat) : Except PyErr (Option Literature) := do
  match literature with
  | none => .ok none
  | some l =>
    let select_count := Nat.sqrt greeting_length / 2
    let generate_count := select_count * 3
    let generated ← Jabberwocky.generate_words wordlist generate_count cands
    match generated with
    | none => .ok (some l)
    | some gen =>
      if gen = [] then .ok (some l)
      else match oracleResp with
      | none => .ok (some l)
      | some resp =>
        let lines := (stripPy resp).splitOn '\n'
        let selected := (lines.map stripPy).filter (fun w => w ≠ [] ∧ w ∈ gen)
        let selected := if selected = [] then fallbackSample else selected
        .ok (some { l with jabberwocky := some selected })

/-- The 0-based index `select_album` settles on (pipeline.py lines
202-213): the parsed verdict minus one when it is within `[1, len]`,
otherwise the `random.randint(0, 4)` fallback draw `r % 5`. -/
def albumSelection (albums : List AlbumSel) (ev : Str) (r : Nat) : Nat :=
  match parseVerdictNum ev with
  | some n => if 1 ≤ n ∧ n ≤ albums.length then n - 1 else r % 5
  | none => r % 5

/-- `select_album(io_manager, literature)` (pipeline.py lines 148-215).
`albums` is the fetch result (empty for an unavailable catalog), `resp`
the oracle response, `r` the `random.randint(0, 4)` draw (as `r % 5`).
`none` models returning `None`; `some (.error _)` models the IndexError
from `albums[selection]` when the hard-coded fallback range exceeds the
list. -/
def select_album (albums : List AlbumSel) (resp : Option Str) (r : Nat) :
    Option (Except PyErr AlbumSel) :=
  if albums = [] then none
  else match resp with
    | none => none
    | some ev =>
      if h : albumSelection albums ev r < albums.length
      then some (.ok (albums.get ⟨albumSelection albums ev r, h⟩))
      else some (.error .albumIndexError)

/-- `analyze_album_art(io_manager, album)` (pipeline.py lines 218-267):
installs the `'songs'` and `'coverart'` keys on the album in place;
`details` is the `get_album_details` result and `analysis` the vision
oracle's response. -/
def analyze_album_art (album : Option AlbumSel) (details : Option AlbumDetails)
    (analysis : Option Str) : Option AlbumFull :=
  match album with
  | none => none
  | some a =>
    match details with
    | none => some ⟨a, none, none⟩
    | some d =>
      match d.coverart with
      | none => some ⟨a, d.songs, none⟩
      | some _ => some ⟨a, d.songs, analysis⟩

/-- The source-material section of the synthesis prompt (pipeline.py
lines 313-346): present sources are formatted in, absent ones leave no
trace.  Fallible only through `format_album`. -/
def synthPromptBase (weather : Option Weather) (literature : Option Literature)
    (album : Option AlbumFull) : Except PyErr Str := do
  let p0 := "Compose a motivating morning wake-up call.".toList
  if album.isSome ∨ weather.isSome ∨ literature.isSome then do
    let p := p0 ++ " Write based on the following source material:".toList
    let p := if weather.isSome then p ++ "\n\n".toList ++ format_weather weather else p
    let p := if literature.isSome then
      p ++ "\n\n".toList ++ format_literature literature else p
    let p ←
      if album.isSome then do
        let fa ← format_album album
        pure (p ++ "\n\n".toList ++ fa)
      else pure p
    let p := p ++ "\n".toList
    let p := if weather.isSome then
      p ++ "\nThe listener can see and feel the current weather.".toList else p
    let p := if literature.isSome then
      p ++ "\nThe listener has NOT read the literature excerpt.".toList else p
    let p := if album.isSome then
      p ++ "\nThe listener has NOT seen or heard the album yet.".toList else p
    let p := p ++ "\n\n".toList
    let p := if literature.isSome then
      p ++ ("Consider whether the literature excerpt has any distinctive "
        ++ "structural or stylistic elements. ").toList else p
    pure (p ++ ("Avoid references that are too specific or out of context.\n\n"
      ++ "Weave these elements into a unified vision. Avoid scattered fragments.").toList)
  else pure p0

/-- The unguarded `literature['jabberwocky']` access of pipeline.py line
348: TypeError when `literature` is `None`, KeyError when the dict lacks
the key. -/
def jabberwockyLookup (literature : Option Literature) : Except PyErr (List Str) :=
  match literature with
  | none => Except.error PyErr.noneSubscript
  | some l =>
    match l.jabberwocky with
    | none => Except.error PyErr.jabberwockyKeyError
    | some jw => Except.ok jw

/-- `synthesize_materials(io_manager, weather, literature, album,
greeting_length)` (pipeline.py lines 293-396).  `oracle` maps the built
prompt to a response (`none` for a transport failure); `r1`/`r2` are the
two `random.randint(1, 10)` draws for the length window. -/
def synthesize_materials (weather : Option Weather) (literature : Option Literature)
    (album : Option AlbumFull) (oracle : Str → Option Str) (r1 r2 : Nat)
    (greeting_length : Nat) : Except PyErr (Option Str) := do
  let lo := greeting_length - (1 + r1 % 10)
  let hi := greeting_length + (1 + r2 % 10)
  let p1 ← synthPromptBase weather literature album
  let jw ← jabberwockyLookup literature
  let p2 := if jw ≠ [] then
    p1 ++ ("\n\nFurthermore, please use the integrate the following "
      ++ "Jabberwocky-style nonsense words with the greeting, as naturally "
      ++ "as possible.\n\n").toList ++ format_jabberwocky jw
    else p1
  let p3 := p2 ++ "\n    \nMaintain an impersonal voice.\n\nPlease keep the final greeting between ".toList
    ++ natToStr lo ++ " and ".toList ++ natToStr hi
    ++ " words in length. Respond in the following format exactly:\n\nREASONING:".toList
  let p4 := if album.isSome ∨ literature.isSome ∨ weather.isSome then
    p3 ++ "\n(A few paragraphs pondering the sources)".toList else p3
  let prompt := p4 ++ "\n(A few paragraphs planning the greeting)\n\nGREETING:\n(The final generated greeting)".toList
  match oracle prompt with
  | none => .ok none
  | some g => .ok (some (extract_greeting g))

/-- The pipeline stages of `main` (main.py lines 52-92), plus the
word-selection stage the spec describes. -/
inductive Stage where
  | weather
  | literatureValidate
  | wordSelect
  | albumSelect
  | artAnalyze
  | synthesize
deriving DecidableEq, Repr

/-- The external world of one `main` run: every collaborator result and
random draw the stages consume. -/
structure Env where
  weather : Option Weather
  litAttempts : List LitAttempt
  albums : List AlbumSel
  albumResp : Option Str
  albumRand : Nat
  artDetails : Option AlbumDetails
  artResp : Option Str
  synthOracle : Str → Option Str
  r1 : Nat
  r2 : Nat

/-- `main()` (main.py lines 52-111) up to the synthesis stage: the stages
entered, in order, and the outcome — `.error e` when an exception
propagates to the top-level handler (which re-raises), `.ok none` when
synthesis returns `None` (the run aborts), `.ok (some g)` for a produced
greeting.  Literature validation is run with `max_attempts = 5`. -/
def mainRun (env : Env) : List Stage × Except PyErr (Option Str) :=
  let weather := env.weather
  let vres := validate_literature (env.litAttempts.take 5)
  let lit := vres.result
  match select_album env.albums env.albumResp env.albumRand with
  | some (.error e) =>
    ([.weather, .literatureValidate, .albumSelect], .error e)
  | albRes =>
    let album0 : Option AlbumSel :=
      match albRes with
      | some (.ok a) => some a
      | _ => none
    let album := analyze_album_art album0 env.artDetails env.artResp
    ([.weather, .literatureValidate, .albumSelect, .artAnalyze, .synthesize],
      synthesize_materials weather lit album env.synthOracle env.r1 env.r2
        MESSAGE_MEAN_LEN)

end Pipeline

namespace Jabberwocky

/-- Invariant of the collection loop: starting from an accumulator that is
short enough, duplicate-free and disjoint from the wordlist, a returned
batch has exactly `count` words, none from the wordlist, no duplicates. -/
theorem collectLoop_invariant (wl : List Str) (count : Nat) :
    ∀ (cands acc res : List Str), collectLoop wl count cands acc = some res →
      acc.length ≤ count → (∀ w ∈ acc, w ∉ wl) → acc.Nodup →
      res.length = count ∧ (∀ w ∈ res, w ∉ wl) ∧ res.Nodup := by
  intro cands
  induction cands with
  | nil =>
    intro acc res h hlen hwl hnd
    rw [collectLoop] at h
    by_cases hc : count ≤ acc.length
    · simp only [if_pos hc] at h
      cases h
      exact ⟨Nat.le_antisymm hlen hc, hwl, hnd⟩
    · simp only [if_neg hc] at h
      cases h
  | cons w rest ih =>
    intro acc res h hlen hwl hnd
    rw [collectLoop] at h
    by_cases hc : count ≤ acc.length
    · simp only [if_pos hc] at h
      cases h
      exact ⟨Nat.le_antisymm hlen hc, hwl, hnd⟩
    · simp only [if_neg hc] at h
      by_cases hmem : w ∈ wl ∨ w ∈ acc
      · simp only [if_pos hmem] at h
        exact ih acc res h hlen hwl hnd
      · simp only [if_neg hmem] at h
        push_neg at hmem
        refine ih (acc ++ [w]) res h ?_ ?_ ?_
        · have := Nat.lt_of_not_le hc
          simpa using this
        · intro v hv
          rcases List.mem_append.mp hv with hv | hv
          · exact hwl v hv
          · simp only [List.mem_singleton] at hv
            subst hv
            exact hmem.1
        · refine List.nodup_append.mpr ⟨hnd, List.nodup_singleton w, ?_⟩
          intro v hv hv'
          simp only [List.mem_singleton] at hv'
          subst hv'
          exact hmem.2 hv

end Jabberwocky

namespace Pipeline

/-- An attempt whose fetch succeeded but whose oracle verdict was negative
(the loop keeps going past it). -/
def rejectedAttempt (a : LitAttempt) : Prop :=
  ∃ f t ev, a.fetch = some (f, t) ∧ a.response = some ev ∧ affirm ev = false

/-- An attempt the loop passes without returning: failed fetch or negative
verdict. -/
def passedAttempt (a : LitAttempt) : Prop :=
  a.fetch = none ∨ rejectedAttempt a

theorem validate_nil : validate_literature [] = ⟨none, 0, []⟩ := rfl

theorem validate_cons_fetch_none (a : LitAttempt) (rest : List LitAttempt)
    (h : a.fetch = none) :
    validate_literature (a :: rest) = validate_literature rest := by
  rw [validate_literature.eq_def]
  simp [h]

theorem validate_cons_resp_none (a : LitAttempt) (rest : List LitAttempt)
    (f : LitFetch) (t : Str) (hf : a.fetch = some (f, t)) (hr : a.response = none) :
    validate_literature (a :: rest) = ⟨none, 1, []⟩ := by
  rw [validate_literature.eq_def]
  simp [hf, hr]

theorem validate_cons_affirm (a : LitAttempt) (rest : List LitAttempt)
    (f : LitFetch) (t : Str) (ev : Str) (hf : a.fetch = some (f, t))
    (hr : a.response = some ev) (ha : affirm ev = true) :
    validate_literature (a :: rest) = ⟨some (mkLit f), 1, [t]⟩ := by
  rw [validate_literature.eq_def]
  simp [hf, hr, ha]

theorem validate_cons_reject (a : LitAttempt) (rest : List LitAttempt)
    (f : LitFetch) (t : Str) (ev : Str) (hf : a.fetch = some (f, t))
    (hr : a.response = some ev) (ha : affirm ev = false) :
    validate_literature (a :: rest) =
      ⟨(validate_literature rest).result, (validate_literature rest).oracleCalls + 1,
        (validate_literature rest).saved⟩ := by
  rw [validate_literature.eq_def]
  simp [hf, hr, ha]

/-- The oracle-call count of `validate_literature` is bounded by the
attempt budget. -/
theorem validate_calls_le (attempts : List LitAttempt) :
    (validate_literature attempts).oracleCalls ≤ attempts.length := by
  induction attempts with
  | nil => simp [validate_nil]
  | cons a rest ih =>
    match hf : a.fetch with
    | none =>
      rw [validate_cons_fetch_none a rest hf]
      exact Nat.le_succ_of_le ih
    | some (f, t) =>
      match hr : a.response with
      | none =>
        rw [validate_cons_resp_none a rest f t hf hr]
        simp
      | some ev =>
        match ha : affirm ev with
        | true =>
          rw [validate_cons_affirm a rest f t ev hf hr ha]
          simp
        | false =>
          rw [validate_cons_reject a rest f t ev hf hr ha]
          simpa using ih

/-- A successful validation result is the first affirmatively-judged fetch,
and exactly its source text was saved. -/
theorem validate_some_split (attempts : List LitAttempt) (lit : Literature)
    (h : (validate_literature attempts).result = some lit) :
    ∃ pre a post f text ev,
      attempts = pre ++ a :: post ∧ (∀ b ∈ pre, passedAttempt b) ∧
      a.fetch = some (f, text) ∧ a.response = some ev ∧ affirm ev = true ∧
      lit = mkLit f ∧ (validate_literature attempts).saved = [text] := by
  induction attempts with
  | nil => simp [validate_nil] at h
  | cons a rest ih =>
    match hf : a.fetch with
    | none =>
      rw [validate_cons_fetch_none a rest hf] at h ⊢
      obtain ⟨pre, b, post, f, text, ev, heq, hpre, h1, h2, h3, h4, h5⟩ := ih h
      exact ⟨a :: pre, b, post, f, text, ev, by rw [heq, List.cons_append], by
        intro c hc
        rcases List.mem_cons.mp hc with hc | hc
        · subst hc; exact Or.inl hf
        · exact hpre c hc, h1, h2, h3, h4, h5⟩
    | some (f, t) =>
      match hr : a.response with
      | none =>
        rw [validate_cons_resp_none a rest f t hf hr] at h
        simp at h
      | some ev =>
        match ha : affirm ev with
        | true =>
          rw [validate_cons_affirm a rest f t ev hf hr ha] at h ⊢
          simp only [Option.some.injEq] at h
          exact ⟨[], a, rest, f, t, ev, rfl, by simp, hf, hr, ha, h.symm, rfl⟩
        | false =>
          rw [validate_cons_reject a rest f t ev hf hr ha] at h ⊢
          obtain ⟨pre, b, post, f', text, ev', heq, hpre, h1, h2, h3, h4, h5⟩ := ih h
          exact ⟨a :: pre, b, post, f', text, ev', by rw [heq, List.cons_append], by
            intro c hc
            rcases List.mem_cons.mp hc with hc | hc
            · subst hc; exact Or.inr ⟨f, t, ev, hf, hr, ha⟩
            · exact hpre c hc, h1, h2, h3, h4, h5⟩

/-- An oracle transport failure, reached after only passed attempts, makes
the stage return `None` with nothing saved. -/
theorem validate_transport_failure (pre : List LitAttempt) :
    ∀ (a : LitAttempt) (post : List LitAttempt) (f : LitFetch) (text : Str),
      (∀ b ∈ pre, passedAttempt b) → a.fetch = some (f, text) → a.response = none →
      (validate_literature (pre ++ a :: post)).result = none ∧
      (validate_literature (pre ++ a :: post)).saved = [] := by
  induction pre with
  | nil =>
    intro a post f text _ hf hr
    rw [List.nil_append, validate_cons_resp_none a post f text hf hr]
    exact ⟨rfl, rfl⟩
  | cons b pre ih =>
    intro a post f text hpre hf hr
    have hb : passedAttempt b := hpre b (List.mem_cons_self b pre)
    have hpre' : ∀ c ∈ pre, passedAttempt c := fun c hc => hpre c (List.mem_cons_of_mem b hc)
    rcases hb with hb | ⟨fb, tb, evb, hbf, hbr, hba⟩
    · rw [List.cons_append, validate_cons_fetch_none b (pre ++ a :: post) hb]
      exact ih a post f text hpre' hf hr
    · rw [List.cons_append, validate_cons_reject b (pre ++ a :: post) fb tb evb hbf hbr hba]
      exact ih a post f text hpre' hf hr

end Pipeline

/-- C7: whenever `generate_words` returns a list rather than `None`, that
list has exactly `count` strings, none of them (case-sensitively) equal to
a wordlist entry, and all pairwise distinct. -/
theorem c7_generate_words_batch (wordlist : Option (List Str)) (count : Nat)
    (cands res : List Str)
    (h : Jabberwocky.generate_words wordlist count cands = .ok (some res)) :
    res.length = count ∧ res.Nodup ∧
      ∀ wl, wordlist = some wl → ∀ w ∈ res, w ∉ wl := by
  match wordlist with
  | none =>
    simp [Jabberwocky.generate_words] at h
  | some [] =>
    simp [Jabberwocky.generate_words] at h
  | some (v :: wl') =>
    simp only [Jabberwocky.generate_words, Except.ok.injEq, Option.some.injEq] at h
    obtain ⟨hlen, hwl, hnd⟩ :=
      Jabberwocky.collectLoop_invariant (v :: wl') count cands [] res h
        (Nat.zero_le _) (by simp) List.nodup_nil
    refine ⟨hlen, hnd, ?_⟩
    intro wl hwl' w hw
    cases hwl'
    exact hwl w hw

/-- C7 witness: a concrete run collecting 2 words while discarding the
wordlist collision and the duplicate. -/
theorem c7_generate_words_batch_witness :
    ([['z','z','z'], ['q','q','q']] : List Str).length = 2 ∧
      ([['z','z','z'], ['q','q','q']] : List Str).Nodup ∧
      ∀ wl, (some [['a','b','c']] : Option (List Str)) = some wl →
        ∀ w ∈ ([['z','z','z'], ['q','q','q']] : List Str), w ∉ wl :=
  c7_generate_words_batch (some [['a','b','c']]) 2
    [['z','z','z'], ['a','b','c'], ['q','q','q'], ['z','z','z']]
    [['z','z','z'], ['q','q','q']] rfl

/-- C8: `validate_literature` makes at most as many oracle calls as the
attempt budget; a returned excerpt is the first affirmatively-judged
fetch, with exactly that excerpt's source text saved via `save_book`; and
an oracle transport failure ends the loop at once, returning the
unavailable result with nothing saved. -/
theorem c8_validate_literature (attempts : List Pipeline.LitAttempt) :
    (Pipeline.validate_literature attempts).oracleCalls ≤ attempts.length ∧
    (∀ lit, (Pipeline.validate_literature attempts).result = some lit →
      ∃ pre a post f text ev,
        attempts = pre ++ a :: post ∧ (∀ b ∈ pre, Pipeline.passedAttempt b) ∧
        a.fetch = some (f, text) ∧ a.response = some ev ∧
        Pipeline.affirm ev = true ∧ lit = Pipeline.mkLit f ∧
        (Pipeline.validate_literature attempts).saved = [text]) ∧
    (∀ pre a post f text, attempts = pre ++ a :: post →
      (∀ b ∈ pre, Pipeline.passedAttempt b) →
      a.fetch = some (f, text) → a.response = none →
      (Pipeline.validate_literature attempts).result = none ∧
      (Pipeline.validate_literature attempts).saved = []) := by
  refine ⟨Pipeline.validate_calls_le attempts, ?_, ?_⟩
  · intro lit h
    exact Pipeline.validate_some_split attempts lit h
  · intro pre a post f text heq hpre hf hr
    subst heq
    exact Pipeline.validate_transport_failure pre a post f text hpre hf hr

/-- C8 witness: a concrete budget of two attempts — a failed fetch, then a
transport failure — returns the unavailable result after one oracle call. -/
theorem c8_validate_literature_witness :
    (Pipeline.validate_literature
      [⟨none, none⟩, ⟨some (⟨['t'], ['a'], ['e']⟩, ['x']), none⟩]).result = none ∧
    (Pipeline.validate_literature
      [⟨none, none⟩, ⟨some (⟨['t'], ['a'], ['e']⟩, ['x']), none⟩]).oracleCalls ≤ 2 :=
  ⟨((c8_validate_literature
      [⟨none, none⟩, ⟨some (⟨['t'], ['a'], ['e']⟩, ['x']), none⟩]).2.2
      [⟨none, none⟩] ⟨some (⟨['t'], ['a'], ['e']⟩, ['x']), none⟩ [] ⟨['t'], ['a'], ['e']⟩ ['x']
      rfl (by intro b hb; simp at hb; subst hb; exact Or.inl rfl) rfl rfl).1,
    (c8_validate_literature
      [⟨none, none⟩, ⟨some (⟨['t'], ['a'], ['e']⟩, ['x']), none⟩]).1⟩

/-- The value of `select_album` on a non-empty list and a delivered
response, with the parse-then-bounds-check-then-fallback selection made
explicit. -/
theorem select_album_eq (albums : List Pipeline.AlbumSel) (ev : Str) (r : Nat)
    (hne : albums ≠ []) :
    Pipeline.select_album albums (some ev) r =
      (if h : Pipeline.albumSelection albums ev r < albums.length
       then some (Except.ok (albums.get ⟨Pipeline.albumSelection albums ev r, h⟩))
       else some (Except.error PyErr.albumIndexError)) := by
  simp only [Pipeline.select_album, if_neg hne]

/-- C4 counterexample: on a one-element candidate list with an
unparseable response and fallback draw 4, `select_album` raises IndexError
(`albums[4]` on a one-element list) — the claim asserts that the fallback
index is always within `[0, len(albums))` and that the function never
raises. -/
theorem c4_select_album_cex :
    Pipeline.select_album [⟨['a'], ['b'], 1, []⟩]
      (some ("no verdict here".toList)) 4 =
      some (Except.error PyErr.albumIndexError) := rfl

/-- C4 amended: with a delivered response on a non-empty list, a parsed
`VERDICT:` number `n` within `[1, len]` selects the album at index `n-1`;
otherwise the fallback index is the `randint(0, 4)` draw, which selects an
album when it is in range and raises IndexError when it is not.  For
five-element lists (the count the pipeline fetches) the fallback is
therefore uniform over `[0, 5) = [0, len)` and the function never raises;
the draw ranges over all five residues. -/
theorem c4_select_album_amended (albums : List Pipeline.AlbumSel) (ev : Str)
    (r : Nat) (hne : albums ≠ []) :
    (∀ n, Pipeline.parseVerdictNum ev = some n → 1 ≤ n → n ≤ albums.length →
      ∃ a, albums.get? (n - 1) = some a ∧
        Pipeline.select_album albums (some ev) r = some (Except.ok a)) ∧
    ((Pipeline.parseVerdictNum ev = none ∨
      ∃ n, Pipeline.parseVerdictNum ev = some n ∧ (n = 0 ∨ albums.length < n)) →
      (r % 5 < albums.length →
        ∃ a, albums.get? (r % 5) = some a ∧
          Pipeline.select_album albums (some ev) r = some (Except.ok a)) ∧
      (albums.length ≤ r % 5 →
        Pipeline.select_album albums (some ev) r =
          some (Except.error PyErr.albumIndexError))) ∧
    (albums.length = 5 →
      ∀ e, Pipeline.select_album albums (some ev) r ≠ some (Except.error e)) ∧
    (∀ k, k < 5 → ∃ rk, rk % 5 = k) := by
  refine ⟨?_, ?_, ?_, ?_⟩
  · intro n hn h1 h2
    have hsel : Pipeline.albumSelection albums ev r = n - 1 := by
      simp [Pipeline.albumSelection, hn, And.intro h1 h2]
    have hlt : n - 1 < albums.length := by omega
    rw [select_album_eq albums ev r hne, hsel]
    refine ⟨albums.get ⟨n - 1, hlt⟩, (List.get?_eq_get hlt), ?_⟩
    rw [dif_pos hlt]
  · intro hfall
    have hsel : Pipeline.albumSelection albums ev r = r % 5 := by
      rcases hfall with hnone | ⟨n, hn, hbad⟩
      · simp [Pipeline.albumSelection, hnone]
      · have hcond : ¬ (1 ≤ n ∧ n ≤ albums.length) := by omega
        simp [Pipeline.albumSelection, hn, hcond]
    rw [select_album_eq albums ev r hne, hsel]
    constructor
    · intro hlt
      refine ⟨albums.get ⟨r % 5, hlt⟩, (List.get?_eq_get hlt), ?_⟩
      rw [dif_pos hlt]
    · intro hge
      rw [dif_neg (by omega)]
  · intro h5 e
    rw [select_album_eq albums ev r hne]
    have hlt : Pipeline.albumSelection albums ev r < albums.length := by
      have hm : r % 5 < 5 := Nat.mod_lt r (by norm_num)
      unfold Pipeline.albumSelection
      split
      · split
        · omega
        · omega
      · omega
    rw [dif_pos hlt]
    simp
  · intro k hk
    exact ⟨k, Nat.mod_eq_of_lt hk⟩

/-- C4 witness: `VERDICT: 3` against a five-element list resolves to the
album at 0-based index 2, and a five-element list never raises. -/
theorem c4_select_album_amended_witness :
    (∃ a, ([⟨['a'], [], 1, []⟩, ⟨['b'], [], 1, []⟩, ⟨['c'], [], 1, []⟩,
        ⟨['d'], [], 1, []⟩, ⟨['e'], [], 1, []⟩] : List Pipeline.AlbumSel).get? 2 =
        some a ∧
      Pipeline.select_album
        [⟨['a'], [], 1, []⟩, ⟨['b'], [], 1, []⟩, ⟨['c'], [], 1, []⟩,
          ⟨['d'], [], 1, []⟩, ⟨['e'], [], 1, []⟩]
        (some ("VERDICT: 3".toList)) 0 = some (Except.ok a)) :=
  (c4_select_album_amended
    [⟨['a'], [], 1, []⟩, ⟨['b'], [], 1, []⟩, ⟨['c'], [], 1, []⟩,
      ⟨['d'], [], 1, []⟩, ⟨['e'], [], 1, []⟩]
    ("VERDICT: 3".toList) 0 (by simp)).1 3 (by decide) (by decide) (by decide)

namespace Pipeline

theorem isPre_iff (pat : Str) : ∀ s : Str, isPre pat s = true ↔ s.take pat.length = pat := by
  induction pat with
  | nil => intro s; simp [isPre]
  | cons a as ih =>
    intro s
    cases s with
    | nil => simp [isPre]
    | cons b bs =>
      simp only [isPre, Bool.and_eq_true, beq_iff_eq, List.length_cons, List.take_succ_cons,
        List.cons.injEq]
      constructor
      · rintro ⟨h1, h2⟩
        exact ⟨h1.symm, (ih bs).mp h2⟩
      · rintro ⟨h1, h2⟩
        exact ⟨h1.symm, (ih bs).mpr h2⟩

theorem findSub_eq_some (pat : Str) (hpat : pat ≠ []) :
    ∀ (s : Str) (i : Nat), findSub pat s = some i →
      isPre pat (s.drop i) = true ∧ ∀ j, j < i → isPre pat (s.drop j) = false := by
  intro s
  induction s with
  | nil =>
    intro i h
    rw [findSub] at h
    rw [if_neg (by rw [List.isEmpty_iff]; exact hpat)] at h
    cases h
  | cons c rest ih =>
    intro i h
    rw [findSub] at h
    by_cases hp : isPre pat (c :: rest) = true
    · simp only [if_pos hp] at h
      cases h
      exact ⟨hp, by omega⟩
    · rw [if_neg hp] at h
      cases hf : findSub pat rest with
      | none => rw [hf] at h; cases h
      | some k =>
        rw [hf] at h
        have hik : i = k + 1 := by
          have h' : some (k + 1) = some i := h
          injection h' with h'
          omega
        subst hik
        obtain ⟨h1, h2⟩ := ih k hf
        refine ⟨h1, ?_⟩
        intro j hj
        cases j with
        | zero =>
          simp only [List.drop_zero]
          exact Bool.not_eq_true _ ▸ (by simpa using hp)
        | succ j' =>
          simpa using h2 j' (by omega)

theorem findSub_eq_none (pat : Str) (hpat : pat ≠ []) :
    ∀ s : Str, findSub pat s = none → ∀ i, isPre pat (s.drop i) = false := by
  intro s
  induction s with
  | nil =>
    intro h i
    rw [List.drop_nil]
    cases pat with
    | nil => exact absurd rfl hpat
    | cons a as => rfl
  | cons c rest ih =>
    intro h i
    rw [findSub] at h
    by_cases hp : isPre pat (c :: rest) = true
    · simp [if_pos hp] at h
    · rw [if_neg hp] at h
      cases hf : findSub pat rest with
      | none =>
        cases i with
        | zero =>
          simpa using hp
        | succ i' =>
          simpa using ih hf i'
      | some k => rw [hf] at h; cases h

/-- Modelled from the claim's words: the greeting label occurs (matched
case-insensitively) at position `i` of the response. -/
def markerAtUpper (g : Str) (i : Nat) : Bool :=
  upperStr ((g.drop i).take 9) == "GREETING:".toList

/-- Modelled from the amended claim's words: when the label occurs
(case-insensitively), everything after its first occurrence, with
surrounding whitespace trimmed and one layer of enclosing double quotes
removed; otherwise the entire response with surrounding whitespace
trimmed. -/
def specExtract (g : Str) : Str :=
  if h : ∃ i, i < g.length + 1 ∧ markerAtUpper g i = true then
    unquoteOnce (stripPy (g.drop (Nat.find h + 9)))
  else stripPy g

/-- A position where the marker occurs always leaves at least the marker's
nine characters in the response, so it is bounded by the length. -/
theorem markerAtUpper_lt (g : Str) (i : Nat) (h : markerAtUpper g i = true) :
    i < g.length + 1 := by
  unfold markerAtUpper at h
  rw [beq_iff_eq] at h
  have h9 : (upperStr ((g.drop i).take 9)).length = 9 := by rw [h]; rfl
  unfold upperStr at h9
  rw [List.length_map, List.length_take, List.length_drop] at h9
  omega

theorem markerAtUpper_iff (g : Str) (i : Nat) :
    markerAtUpper g i = true ↔ isPre ("GREETING:".toList) ((upperStr g).drop i) = true := by
  rw [isPre_iff]
  have hlen : ("GREETING:".toList).length = 9 := rfl
  rw [hlen]
  unfold markerAtUpper upperStr
  rw [← List.map_drop, ← List.map_take]
  simp [beq_iff_eq]

end Pipeline

/-- C9 counterexample: on the marker-free response `" hi "` the extraction
returns the whitespace-stripped `"hi"`, not the entire response
unmodified as the claim states. -/
theorem c9_extract_fallback_cex :
    Pipeline.extract_greeting (" hi ".toList) = ("hi".toList) ∧
    Pipeline.findSub ("GREETING:".toList) (Pipeline.upperStr (" hi ".toList)) = none ∧
    ("hi".toList : Str) ≠ (" hi ".toList : Str) := by
  refine ⟨rfl, rfl, by decide⟩

/-- C9 amended: the extraction equals the declarative rule — if the
response contains the greeting label case-insensitively, the result is
everything after the first occurrence of the label with surrounding
whitespace trimmed and one layer of enclosing double quotes removed;
otherwise the result is the entire response with surrounding whitespace
trimmed (not the unmodified response). -/
theorem c9_extraction_amended (g : Str) :
    Pipeline.extract_greeting g = Pipeline.specExtract g := by
  unfold Pipeline.extract_greeting Pipeline.specExtract
  cases hf : Pipeline.findSub ("GREETING:".toList) (Pipeline.upperStr g) with
  | none =>
    have hnone : ¬ ∃ i, i < g.length + 1 ∧ Pipeline.markerAtUpper g i = true := by
      rintro ⟨i, _, hi⟩
      have := Pipeline.findSub_eq_none ("GREETING:".toList) (by decide)
        (Pipeline.upperStr g) hf i
      rw [(Pipeline.markerAtUpper_iff g i).mp hi] at this
      cases this
    rw [dif_neg hnone]
  | some i =>
    obtain ⟨h1, h2⟩ := Pipeline.findSub_eq_some ("GREETING:".toList) (by decide)
      (Pipeline.upperStr g) i hf
    have hmark : Pipeline.markerAtUpper g i = true :=
      (Pipeline.markerAtUpper_iff g i).mpr h1
    have hex : ∃ j, j < g.length + 1 ∧ Pipeline.markerAtUpper g j = true :=
      ⟨i, Pipeline.markerAtUpper_lt g i hmark, hmark⟩
    rw [dif_pos hex]
    have hfind : Nat.find hex = i := by
      rw [Nat.find_eq_iff]
      refine ⟨⟨Pipeline.markerAtUpper_lt g i hmark, hmark⟩, ?_⟩
      rintro j hj ⟨_, hjm⟩
      have := h2 j hj
      rw [(Pipeline.markerAtUpper_iff g j).mp hjm] at this
      cases this
    rw [hfind]

namespace Pipeline

/-- The stages `main` enters: always weather, literature validation and
album selection in that order; art analysis and synthesis follow unless
album selection raised (IndexError propagating to the top handler). -/
theorem mainRun_trace (env : Env) :
    (mainRun env).1 =
      [Stage.weather, Stage.literatureValidate, Stage.albumSelect,
        Stage.artAnalyze, Stage.synthesize] ∨
    (mainRun env).1 =
      [Stage.weather, Stage.literatureValidate, Stage.albumSelect] := by
  cases h : select_album env.albums env.albumResp env.albumRand with
  | none =>
    left
    simp [mainRun, h]
  | some res =>
    cases res with
    | ok a =>
      left
      simp [mainRun, h]
    | error e =>
      right
      simp [mainRun, h]

/-- When the album-selection stage succeeds or is skipped, the run reaches
synthesis and its outcome is the synthesis outcome on the carried state. -/
theorem mainRun_synth (env : Env)
    (h : ∀ e, select_album env.albums env.albumResp env.albumRand ≠
      some (Except.error e)) :
    (mainRun env).2 =
      synthesize_materials env.weather
        (validate_literature (env.litAttempts.take 5)).result
        (analyze_album_art
          (match select_album env.albums env.albumResp env.albumRand with
            | some (Except.ok a) => some a
            | _ => none)
          env.artDetails env.artResp)
        env.synthOracle env.r1 env.r2 MESSAGE_MEAN_LEN := by
  cases hs : select_album env.albums env.albumResp env.albumRand with
  | none => simp [mainRun, hs]
  | some res =>
    cases res with
    | ok a => simp [mainRun, hs]
    | error e => exact absurd hs (h e)

end Pipeline

/-- C2 counterexample: a concrete run (every collaborator unavailable)
whose stage trace does not contain the word-selection stage — refuting
that `select_words` executes between literature validation and album
selection whenever the pipeline runs. -/
theorem c2_word_select_cex :
    Pipeline.Stage.wordSelect ∉
      (Pipeline.mainRun
        ⟨none, [], [], none, 0, none, none, fun _ => none, 0, 0⟩).1 := by
  decide

/-- C2 amended: on every run the orchestrator enters exactly the stages
weather, literature validation, album selection, then art analysis and
synthesis (the latter two unless album selection raises IndexError), in
that order; the word-selection stage is never executed by the shipped
`main`. -/
theorem c2_stage_order_amended (env : Pipeline.Env) :
    ((Pipeline.mainRun env).1 =
      [Pipeline.Stage.weather, Pipeline.Stage.literatureValidate,
        Pipeline.Stage.albumSelect, Pipeline.Stage.artAnalyze,
        Pipeline.Stage.synthesize] ∨
     (Pipeline.mainRun env).1 =
      [Pipeline.Stage.weather, Pipeline.Stage.literatureValidate,
        Pipeline.Stage.albumSelect]) ∧
    Pipeline.Stage.wordSelect ∉ (Pipeline.mainRun env).1 := by
  refine ⟨Pipeline.mainRun_trace env, ?_⟩
  rcases Pipeline.mainRun_trace env with h | h <;> rw [h] <;> decide

/-- C1: with weather, literature and album all absent, the run does reach
the synthesis stage, but `synthesize_materials` raises TypeError at the
unguarded `literature['jabberwocky']` access before its oracle call, so no
greeting is ever produced — the run aborts for every oracle behaviour,
contradicting the specified all-null degraded run. -/
theorem c1_all_null_crash (oracle : Str → Option Str) (r1 r2 : Nat) :
    Pipeline.synthesize_materials none none none oracle r1 r2
      Pipeline.MESSAGE_MEAN_LEN = Except.error PyErr.noneSubscript ∧
    Pipeline.mainRun ⟨none, [], [], none, 0, none, none, oracle, r1, r2⟩ =
      ([Pipeline.Stage.weather, Pipeline.Stage.literatureValidate,
        Pipeline.Stage.albumSelect, Pipeline.Stage.artAnalyze,
        Pipeline.Stage.synthesize], Except.error PyErr.noneSubscript) :=
  ⟨rfl, rfl⟩

namespace Pipeline

/-- `format_album` succeeds on any album whose songs field is populated. -/
theorem format_album_ok (af : AlbumFull) (h : af.songs.isSome = true) :
    ∃ t, format_album (some af) = .ok t := by
  obtain ⟨sel, songs, cover⟩ := af
  cases songs with
  | none => simp at h
  | some songs => cases cover <;> exact ⟨_, rfl⟩

/-- The source-material prompt section succeeds whenever the album is
absent or carries a track list. -/
theorem synthPromptBase_ok (w : Option Weather) (lit : Option Literature)
    (a : Option AlbumFull)
    (ha : a = none ∨ ∃ af, a = some af ∧ af.songs.isSome = true) :
    ∃ p, synthPromptBase w lit a = .ok p := by
  rcases ha with rfl | ⟨af, rfl, hsongs⟩
  · cases w <;> cases lit <;> exact ⟨_, rfl⟩
  · obtain ⟨sel, songs, cover⟩ := af
    cases songs with
    | none => simp at hsongs
    | some songs => cases cover <;> cases w <;> cases lit <;> exact ⟨_, rfl⟩

/-- With the jabberwocky key absent and the prompt section succeeding,
synthesis raises the KeyError of line 348. -/
theorem synthesize_missing_key (w : Option Weather) (l : Literature)
    (a : Option AlbumFull) (oracle : Str → Option Str) (r1 r2 glen : Nat)
    (hjw : l.jabberwocky = none)
    (hp : ∃ p, synthPromptBase w (some l) a = .ok p) :
    synthesize_materials w (some l) a oracle r1 r2 glen =
      .error .jabberwockyKeyError := by
  obtain ⟨p, hp⟩ := hp
  have hjl : jabberwockyLookup (some l) = Except.error PyErr.jabberwockyKeyError := by
    have hred : jabberwockyLookup (some l) =
        (match l.jabberwocky with
          | none => Except.error PyErr.jabberwockyKeyError
          | some jw => Except.ok jw) := rfl
    rw [hred, hjw]
  unfold synthesize_materials
  rw [hp, hjl]
  rfl

/-- With the jabberwocky key absent, synthesis raises some exception for
every weather and album argument. -/
theorem synthesize_missing_key_raises (w : Option Weather) (l : Literature)
    (a : Option AlbumFull) (oracle : Str → Option Str) (r1 r2 glen : Nat)
    (hjw : l.jabberwocky = none) :
    ∃ e, synthesize_materials w (some l) a oracle r1 r2 glen = .error e := by
  cases hp : synthPromptBase w (some l) a with
  | error e =>
    exact ⟨e, by unfold synthesize_materials; rw [hp]; rfl⟩
  | ok p =>
    exact ⟨.jabberwockyKeyError,
      synthesize_missing_key w l a oracle r1 r2 glen hjw ⟨p, hp⟩⟩

end Pipeline

/-- C3 counterexample: an album whose songs field is `None` (the state
`analyze_album_art` leaves after a failed detail fetch) makes
`synthesize_materials` raise TypeError inside `format_album` — an
exception, but not the claimed KeyError at `literature['jabberwocky']` —
so the claim's location of the raise does not hold for all album
arguments. -/
theorem c3_songs_none_cex :
    Pipeline.synthesize_materials none (some ⟨['t'], ['a'], ['e'], none⟩)
        (some ⟨⟨['n'], ['r'], 1, []⟩, none, none⟩) (fun _ => none) 0 0 140 =
      Except.error PyErr.songsNoneError ∧
    PyErr.songsNoneError ≠ PyErr.jabberwockyKeyError :=
  ⟨rfl, by decide⟩

/-- C3 amended: for every non-null literature record lacking the
`'jabberwocky'` key, `synthesize_materials` raises an exception instead of
returning a greeting for all weather and album arguments; the exception is
the KeyError at the unguarded `literature['jabberwocky']` access whenever
the album argument is absent or carries a track list (an album with a
`None` songs field makes `format_album` raise TypeError first).  Moreover
`validate_literature` never installs that key, and the shipped `main`
never executes the word-selection stage that would. -/
theorem c3_missing_key_amended (w : Option Pipeline.Weather)
    (l : Pipeline.Literature) (a : Option Pipeline.AlbumFull)
    (oracle : Str → Option Str) (r1 r2 glen : Nat)
    (hjw : l.jabberwocky = none) :
    (∃ e, Pipeline.synthesize_materials w (some l) a oracle r1 r2 glen =
      Except.error e) ∧
    ((a = none ∨ ∃ af, a = some af ∧ af.songs.isSome = true) →
      Pipeline.synthesize_materials w (some l) a oracle r1 r2 glen =
        Except.error PyErr.jabberwockyKeyError) ∧
    (∀ attempts lit,
      (Pipeline.validate_literature attempts).result = some lit →
      lit.jabberwocky = none) ∧
    (∀ env, Pipeline.Stage.wordSelect ∉ (Pipeline.mainRun env).1) := by
  refine ⟨Pipeline.synthesize_missing_key_raises w l a oracle r1 r2 glen hjw, ?_, ?_, ?_⟩
  · intro ha
    exact Pipeline.synthesize_missing_key w l a oracle r1 r2 glen hjw
      (Pipeline.synthPromptBase_ok w (some l) a ha)
  · intro attempts lit h
    obtain ⟨_, _, _, f, _, _, _, _, _, _, _, hlit, _⟩ :=
      Pipeline.validate_some_split attempts lit h
    rw [hlit]
    rfl
  · intro env
    rcases Pipeline.mainRun_trace env with h | h <;> rw [h] <;> decide

/-- C3 witness: a concrete literature record without the key and no album
— synthesis raises the KeyError. -/
theorem c3_missing_key_amended_witness :
    Pipeline.synthesize_materials none (some ⟨['t'], ['a'], ['e'], none⟩) none
      (fun _ => none) 0 0 140 = Except.error PyErr.jabberwockyKeyError :=
  (c3_missing_key_amended none ⟨['t'], ['a'], ['e'], none⟩ none
    (fun _ => none) 0 0 140 rfl).2.1 (Or.inl rfl)

namespace Jabberwocky

theorem paddedWord_length (w : Str) : (paddedWord w).length = w.length + 2 := by
  simp [paddedWord]

theorem mem_wordPairs (w : Str) (c : Str) (ch : Char) :
    (c, ch) ∈ wordPairs w ↔ ∃ i, 1 ≤ i ∧ i < (paddedWord w).length ∧
      c = lastN CONTEXT_SIZE ((paddedWord w).take i) ∧
      ch = (paddedWord w).getD i ' ' := by
  have hlen : 1 ≤ (paddedWord w).length := by
    rw [paddedWord_length]; omega
  unfold wordPairs
  simp only [List.mem_map, List.mem_range'_1, Prod.mk.injEq]
  constructor
  · rintro ⟨i, ⟨h1, h2⟩, hc, hch⟩
    exact ⟨i, h1, by omega, hc.symm, hch.symm⟩
  · rintro ⟨i, h1, h2, hc, hch⟩
    exact ⟨i, ⟨h1, by omega⟩, hc.symm, hch.symm⟩

theorem mem_modelPairs (wl : List Str) (c : Str) (ch : Char) :
    (c, ch) ∈ modelPairs wl ↔ ∃ w ∈ wl, (c, ch) ∈ wordPairs w := by
  unfold modelPairs
  simp only [List.mem_flatten, List.mem_map]
  constructor
  · rintro ⟨ps, ⟨w, hw, rfl⟩, hp⟩
    exact ⟨w, hw, hp⟩
  · rintro ⟨w, hw, hp⟩
    exact ⟨wordPairs w, ⟨w, hw, rfl⟩, hp⟩

theorem mem_entryLetters (wl : List Str) (c : Str) (ch : Char) :
    ch ∈ entryLetters wl c ↔ (c, ch) ∈ modelPairs wl := by
  unfold entryLetters
  rw [List.mem_dedup]
  simp only [List.mem_map, List.mem_filter, beq_iff_eq]
  constructor
  · rintro ⟨⟨c', ch'⟩, ⟨hm, hc⟩, hch⟩
    simp only at hc hch
    subst hc; subst hch
    exact hm
  · intro hm
    exact ⟨(c, ch), ⟨hm, rfl⟩, rfl⟩

theorem hasKey_iff (wl : List Str) (c : Str) :
    hasKey wl c = true ↔ ∃ ch, (c, ch) ∈ modelPairs wl := by
  unfold hasKey
  rw [List.any_eq_true]
  constructor
  · rintro ⟨⟨c', ch⟩, hm, hc⟩
    simp only [beq_iff_eq] at hc
    subst hc
    exact ⟨ch, hm⟩
  · rintro ⟨ch, hm⟩
    exact ⟨(c, ch), hm, by simp⟩

/-- The last element of a sentinel-padded word is the terminator. -/
theorem paddedWord_getD_last (w : Str) :
    (paddedWord w).getD ((paddedWord w).length - 1) ' ' = TERMINATOR := by
  have h : paddedWord w = (INITIATOR :: w) ++ [TERMINATOR] := by
    simp [paddedWord]
  rw [paddedWord_length, h]
  rw [List.getD_append_right _ _ _ _ (by simp)]
  have h2 : w.length + 2 - 1 - (INITIATOR :: w).length = 0 := by
    simp
  rw [h2]
  rfl

theorem lastN_two_append (a : Str) (x : Char) (ha : a ≠ []) :
    lastN 2 (a ++ [x]) = lastN 1 a ++ [x] := by
  have hlen : 1 ≤ a.length := by
    cases a with
    | nil => exact absurd rfl ha
    | cons b bs => simp
  unfold lastN
  rw [List.length_append, List.length_singleton]
  have h2 : a.length + 1 - 2 = a.length - 1 := by omega
  rw [h2, List.drop_append_of_le_length (by omega)]

theorem lastN_one_lastN_two (y : Str) : lastN 1 (lastN 2 y) = lastN 1 y := by
  unfold lastN
  rw [List.length_drop, List.drop_drop]
  congr 1
  omega

/-- Reachable generation states are non-empty, and while not terminated
their trailing window coincides with a context recorded somewhere inside a
sentinel-padded wordlist word. -/
theorem reach_invariant (wl : List Str) (hne : wl ≠ []) :
    ∀ word, Reach wl word →
      word ≠ [] ∧
      (word.getLast? ≠ some TERMINATOR →
        ∃ w, w ∈ wl ∧ ∃ i, 1 ≤ i ∧ i < (paddedWord w).length ∧
          lastN CONTEXT_SIZE word = lastN CONTEXT_SIZE ((paddedWord w).take i)) := by
  intro word hreach
  induction hreach with
  | start =>
    refine ⟨by simp, ?_⟩
    intro _
    obtain ⟨w0, wl', rfl⟩ : ∃ w0 wl', wl = w0 :: wl' := by
      cases wl with
      | nil => exact absurd rfl hne
      | cons w0 wl' => exact ⟨w0, wl', rfl⟩
    refine ⟨w0, by simp, 1, le_refl 1, ?_, ?_⟩
    · rw [paddedWord_length]; omega
    · have ht : (paddedWord w0).take 1 = [INITIATOR] := by
        simp [paddedWord]
      rw [ht]
  | step w' l hr hterm hmem ih =>
    obtain ⟨hwne, _⟩ := ih
    refine ⟨by simp, ?_⟩
    intro hlast
    have hlne : l ≠ TERMINATOR := by
      intro hl
      subst hl
      simp at hlast
    have hpair : (lastN CONTEXT_SIZE w', l) ∈ modelPairs wl :=
      (mem_entryLetters wl _ l).mp hmem
    obtain ⟨w, hw, hwp⟩ := (mem_modelPairs wl _ l).mp hpair
    obtain ⟨i, hi1, hi2, hctx, hch⟩ := (mem_wordPairs w _ l).mp hwp
    have hine : i ≠ (paddedWord w).length - 1 := by
      intro hi
      apply hlne
      rw [hch, hi, paddedWord_getD_last]
    refine ⟨w, hw, i + 1, by omega, by omega, ?_⟩
    have htake : (paddedWord w).take (i + 1) =
        (paddedWord w).take i ++ [l] := by
      rw [List.take_succ]
      congr 1
      have : (paddedWord w)[i]? = some ((paddedWord w).getD i ' ') := by
        rw [List.getD_eq_getElem?_getD]
        cases hg : (paddedWord w)[i]? with
        | none =>
          rw [List.getElem?_eq_none_iff] at hg
          omega
        | some v => rfl
      rw [this, hch]
      rfl
    have htne : (paddedWord w).take i ≠ [] := by
      have : ((paddedWord w).take i).length = i := by
        rw [List.length_take]
        omega
      intro hnil
      rw [hnil] at this
      simp at this
      omega
    rw [htake]
    show lastN 2 (w' ++ [l]) = lastN 2 ((paddedWord w).take i ++ [l])
    rw [lastN_two_append _ _ hwne, lastN_two_append _ _ htne]
    have hctx2 : lastN 2 w' = lastN 2 ((paddedWord w).take i) := hctx
    rw [← lastN_one_lastN_two w', ← lastN_one_lastN_two ((paddedWord w).take i), hctx2]

theorem pickCum_mem : ∀ (ws : List (Char × ℚ)) (r : ℚ), ws ≠ [] →
    pickCum ws r ∈ ws.map Prod.fst
  | [], _, h => absurd rfl h
  | [(c, w)], r, _ => by simp [pickCum]
  | (c, w) :: p :: rest, r, _ => by
    rw [pickCum]
    split
    · simp
    · have := pickCum_mem (p :: rest) (r - w) (by simp)
      simp only [List.map_cons, List.mem_cons] at this ⊢
      tauto

theorem modelEntry_keys (wl : List Str) (c : Str) :
    (modelEntry wl c).map Prod.fst = entryLetters wl c := by
  unfold modelEntry
  rw [List.map_map]
  have h : (Prod.fst ∘ fun l => (l, pairCount wl c l)) = (id : Char → Char) :=
    funext fun l => rfl
  rw [h, List.map_id]

theorem map_fst_reweight (dist : List ℚ) (m : Nat) :
    ∀ es : List (Char × Nat),
      (es.map (fun p => if p.1 = TERMINATOR
        then (p.1, (p.2 : ℚ) * termFactor dist m)
        else (p.1, (p.2 : ℚ)))).map Prod.fst = es.map Prod.fst := by
  intro es
  induction es with
  | nil => rfl
  | cons e es ih =>
    simp only [List.map_cons]
    rw [ih]
    congr 1
    split <;> rfl

theorem weightsAt_keys (s : ℚ → ℚ) (wl : List Str) (word : Str) :
    (weightsAt s wl word).map Prod.fst =
      entryLetters wl (lastN CONTEXT_SIZE word) := by
  unfold weightsAt
  rw [map_fst_reweight, modelEntry_keys]

theorem entryLetters_ne_nil (wl : List Str) (c : Str) (h : hasKey wl c = true) :
    entryLetters wl c ≠ [] := by
  obtain ⟨ch, hm⟩ := (hasKey_iff wl c).mp h
  intro hempty
  have hmem := (mem_entryLetters wl c ch).mpr hm
  rw [hempty] at hmem
  simp at hmem

/-- A reachable, non-terminated state's context is a model key. -/
theorem reach_hasKey (wl : List Str) (hne : wl ≠ []) (word : Str)
    (hr : Reach wl word) (hterm : word.getLast? ≠ some TERMINATOR) :
    hasKey wl (lastN CONTEXT_SIZE word) = true := by
  obtain ⟨_, hinv⟩ := reach_invariant wl hne word hr
  obtain ⟨w, hw, i, hi1, hi2, hctx⟩ := hinv hterm
  rw [hasKey_iff]
  exact ⟨(paddedWord w).getD i ' ',
    (mem_modelPairs _ _ _).mpr ⟨w, hw,
      (mem_wordPairs _ _ _).mpr ⟨i, hi1, hi2, hctx, rfl⟩⟩⟩

/-- At a reachable non-terminated state, the loop body either raises the
zero-total ValueError or extends the state by a recorded letter. -/
theorem genStep_cases (s : ℚ → ℚ) (wl : List Str) (word : Str)
    (hkey : hasKey wl (lastN CONTEXT_SIZE word) = true) :
    genStep s wl word r = .error .choicesZeroTotal ∨
    ∃ c, genStep s wl word r = .ok (word ++ [c]) ∧
      c ∈ entryLetters wl (lastN CONTEXT_SIZE word) := by
  unfold genStep
  rw [if_pos hkey]
  cases hch : choosePy (weightsAt s wl word) r with
  | error e =>
    left
    unfold choosePy at hch
    split at hch
    · cases hch
      rfl
    · cases hch
  | ok c =>
    right
    refine ⟨c, rfl, ?_⟩
    unfold choosePy at hch
    split at hch
    · cases hch
    · cases hch
      rw [← weightsAt_keys s wl word]
      apply pickCum_mem
      intro hempty
      have hel := entryLetters_ne_nil wl _ hkey
      rw [← weightsAt_keys s wl word, hempty] at hel
      simp at hel

/-- The generation loop never fails a model lookup from a reachable
state. -/
theorem genLoop_no_keyError (s : ℚ → ℚ) (wl : List Str) (hne : wl ≠ []) :
    ∀ (rs : List ℚ) (word : Str), Reach wl word →
      genLoop s wl rs word ≠ Except.error PyErr.modelKeyError := by
  intro rs
  induction rs with
  | nil =>
    intro word hr
    rw [genLoop]
    split
    · simp
    · simp
  | cons r rest ih =>
    intro word hr
    rw [genLoop]
    split
    · simp
    · rename_i hterm
      have hkey := reach_hasKey wl hne word hr hterm
      rcases genStep_cases s wl word hkey (r := r) with hstep | ⟨c, hstep, hcm⟩
      · rw [hstep]
        simp
      · rw [hstep]
        exact ih (word ++ [c]) (Reach.step word c hr hterm hcm)

end Jabberwocky

/-- C6: for a model built from a non-empty wordlist, the start context and
every trailing window reachable by sampling is a key of the model, and in
consequence no run of the generation loop ever fails the `model[context]`
lookup. -/
theorem c6_reachable_context_in_model (wl : List Str) (hne : wl ≠ []) :
    (∀ word, Jabberwocky.Reach wl word →
      word.getLast? ≠ some Jabberwocky.TERMINATOR →
      Jabberwocky.hasKey wl (Jabberwocky.lastN Jabberwocky.CONTEXT_SIZE word) = true) ∧
    (∀ (s : ℚ → ℚ) (rs : List ℚ),
      Jabberwocky.generate_word s wl rs ≠ Except.error PyErr.modelKeyError) := by
  refine ⟨fun word hr hterm => Jabberwocky.reach_hasKey wl hne word hr hterm, ?_⟩
  intro s rs
  exact Jabberwocky.genLoop_no_keyError s wl hne rs [Jabberwocky.INITIATOR]
    Jabberwocky.Reach.start

/-- C6 witness: the start context of the model built from `["abc"]` is a
key, and a concrete run fails no lookup. -/
theorem c6_reachable_context_in_model_witness :
    Jabberwocky.hasKey [['a','b','c']]
      (Jabberwocky.lastN Jabberwocky.CONTEXT_SIZE [Jabberwocky.INITIATOR]) = true ∧
    Jabberwocky.generate_word Jabberwocky.sqrtQ [['a','b','c']] [0, 0, 0, 0] ≠
      Except.error PyErr.modelKeyError :=
  ⟨(c6_reachable_context_in_model [['a','b','c']] (by simp)).1
      [Jabberwocky.INITIATOR] Jabberwocky.Reach.start (by decide),
    (c6_reachable_context_in_model [['a','b','c']] (by simp)).2
      Jabberwocky.sqrtQ [0, 0, 0, 0]⟩

/-- C5: the claim that `generate_word` always terminates with a string
fails on the wordlist `["abzabc"]` (non-empty, entry longer than the
context size): the draws picking `a`, `b`, `c` reach the state `"#abc"`,
whose only candidate is the end sentinel with weight `1 * distribution[4]
= 0`, and `random.choices` raises ValueError on the zero total instead of
terminating. -/
theorem c5_generate_word_value_error :
    ([['a','b','z','a','b','c']] : List Str) ≠ [] ∧
    (∀ w ∈ ([['a','b','z','a','b','c']] : List Str),
      Jabberwocky.CONTEXT_SIZE < w.length) ∧
    Jabberwocky.generate_word Jabberwocky.sqrtQ [['a','b','z','a','b','c']]
      [0, 0, 1, 0] = Except.error PyErr.choicesZeroTotal := by
  refine ⟨by simp, by decide, ?_⟩
  have hdist : Jabberwocky.length_distribution Jabberwocky.sqrtQ
      [['a','b','z','a','b','c']] = [0, 0, 0, 0, 0, 0, Jabberwocky.sqrtQ 1] := by
    norm_num [Jabberwocky.length_distribution, Jabberwocky.maxWordLen,
      Jabberwocky.cumBuild, Jabberwocky.lenCount, List.filter]
  have hw1 : Jabberwocky.weightsAt Jabberwocky.sqrtQ [['a','b','z','a','b','c']]
      ['#'] = [('a', (1 : ℚ))] := by
    unfold Jabberwocky.weightsAt
    rw [show Jabberwocky.lastN Jabberwocky.CONTEXT_SIZE ['#'] = ['#'] from rfl]
    rw [show Jabberwocky.modelEntry [['a','b','z','a','b','c']] ['#'] =
      [('a', 1)] from by decide]
    rw [List.map_cons, List.map_nil, if_neg (by decide)]
    norm_num
  have hw2 : Jabberwocky.weightsAt Jabberwocky.sqrtQ [['a','b','z','a','b','c']]
      ['#', 'a'] = [('b', (1 : ℚ))] := by
    unfold Jabberwocky.weightsAt
    rw [show Jabberwocky.lastN Jabberwocky.CONTEXT_SIZE ['#','a'] = ['#','a'] from rfl]
    rw [show Jabberwocky.modelEntry [['a','b','z','a','b','c']] ['#','a'] =
      [('b', 1)] from by decide]
    rw [List.map_cons, List.map_nil, if_neg (by decide)]
    norm_num
  have hw3 : Jabberwocky.weightsAt Jabberwocky.sqrtQ [['a','b','z','a','b','c']]
      ['#', 'a', 'b'] = [('z', (1 : ℚ)), ('c', (1 : ℚ))] := by
    unfold Jabberwocky.weightsAt
    rw [show Jabberwocky.lastN Jabberwocky.CONTEXT_SIZE ['#','a','b'] = ['a','b'] from rfl]
    rw [show Jabberwocky.modelEntry [['a','b','z','a','b','c']] ['a','b'] =
      [('z', 1), ('c', 1)] from by decide]
    rw [List.map_cons, List.map_cons, List.map_nil, if_neg (by decide),
      if_neg (by decide)]
    norm_num
  have hw4 : Jabberwocky.weightsAt Jabberwocky.sqrtQ [['a','b','z','a','b','c']]
      ['#', 'a', 'b', 'c'] = [('$', (0 : ℚ))] := by
    unfold Jabberwocky.weightsAt
    rw [show Jabberwocky.lastN Jabberwocky.CONTEXT_SIZE ['#','a','b','c'] =
      ['b','c'] from rfl]
    rw [show Jabberwocky.modelEntry [['a','b','z','a','b','c']] ['b','c'] =
      [('$', 1)] from by decide]
    rw [List.map_cons, List.map_nil, if_pos (by decide)]
    rw [show Jabberwocky.termFactor (Jabberwocky.length_distribution
      Jabberwocky.sqrtQ [['a','b','z','a','b','c']]) (['#','a','b','c'] : Str).length =
      (0 : ℚ) from by rw [Jabberwocky.termFactor, hdist]; norm_num]
    norm_num
  have hs1 : Jabberwocky.genStep Jabberwocky.sqrtQ [['a','b','z','a','b','c']]
      ['#'] 0 = Except.ok ['#', 'a'] := by
    unfold Jabberwocky.genStep
    rw [if_pos (by decide), hw1]
    unfold Jabberwocky.choosePy
    rw [if_neg (by norm_num)]
    rfl
  have hs2 : Jabberwocky.genStep Jabberwocky.sqrtQ [['a','b','z','a','b','c']]
      ['#', 'a'] 0 = Except.ok ['#', 'a', 'b'] := by
    unfold Jabberwocky.genStep
    rw [if_pos (by decide), hw2]
    unfold Jabberwocky.choosePy
    rw [if_neg (by norm_num)]
    rfl
  have hs3 : Jabberwocky.genStep Jabberwocky.sqrtQ [['a','b','z','a','b','c']]
      ['#', 'a', 'b'] 1 = Except.ok ['#', 'a', 'b', 'c'] := by
    unfold Jabberwocky.genStep
    rw [if_pos (by decide), hw3]
    unfold Jabberwocky.choosePy
    rw [if_neg (by norm_num)]
    rw [Jabberwocky.pickCum]
    rw [if_neg (by norm_num)]
    rfl
  have hs4 : Jabberwocky.genStep Jabberwocky.sqrtQ [['a','b','z','a','b','c']]
      ['#', 'a', 'b', 'c'] 0 = Except.error PyErr.choicesZeroTotal := by
    unfold Jabberwocky.genStep
    rw [if_pos (by decide), hw4]
    unfold Jabberwocky.choosePy
    rw [if_pos (by norm_num)]
  unfold Jabberwocky.generate_word
  simp only [Jabberwocky.INITIATOR]
  simp [Jabberwocky.genLoop, hs1, hs2, hs3, hs4]
  decide

namespace Jabberwocky

theorem reach_ne_nil (wl : List Str) (word : Str) (h : Reach wl word) :
    word ≠ [] := by
  cases h with
  | start => simp
  | step w l _ _ _ => simp

theorem cumBuild_length (s : ℚ → ℚ) (wl : List Str) :
    ∀ n, (cumBuild s wl n).length = n + 1 := by
  intro n
  induction n with
  | zero => rfl
  | succ k ih => simp [cumBuild, ih]

/-- Modelled from the claim's words: the terminator re-weighting with the
cumulative table indexed at the number of non-sentinel characters produced
so far (`len(word) - 1`, the start sentinel not counting), rather than at
`len(word)` as the code indexes it. -/
def claimedWeightsAt (s : ℚ → ℚ) (wl : List Str) (word : Str) : List (Char × ℚ) :=
  (modelEntry wl (lastN CONTEXT_SIZE word)).map
    (fun p => if p.1 = TERMINATOR
      then (p.1, (p.2 : ℚ) * termFactor (length_distribution s wl) (word.length - 1))
      else (p.1, (p.2 : ℚ)))

theorem sqrtQ_one : sqrtQ 1 = 1 := by
  norm_num [sqrtQ]

end Jabberwocky

/-- C10 counterexample: in the model of `["abcd", "bcda"]` the state
`"#bcd"` (three generated characters) is reachable and has the terminator
as a candidate; the code multiplies its weight by `distribution[4] = 1`
(indexing with `len(word)`, which counts the start sentinel), while the
claim's indexing at the generated length would use `distribution[3] = 0` —
the two weight tables differ. -/
theorem c10_term_factor_cex :
    Jabberwocky.Reach [['a','b','c','d'], ['b','c','d','a']] ['#','b','c','d'] ∧
    Jabberwocky.weightsAt Jabberwocky.sqrtQ
        [['a','b','c','d'], ['b','c','d','a']] ['#','b','c','d'] ≠
      Jabberwocky.claimedWeightsAt Jabberwocky.sqrtQ
        [['a','b','c','d'], ['b','c','d','a']] ['#','b','c','d'] := by
  constructor
  · have h1 : Jabberwocky.Reach [['a','b','c','d'], ['b','c','d','a']] ['#'] :=
      Jabberwocky.Reach.start
    have h2 := Jabberwocky.Reach.step ['#'] 'b' h1 (by decide) (by decide)
    have h3 := Jabberwocky.Reach.step ['#','b'] 'c' h2 (by decide) (by decide)
    have h4 := Jabberwocky.Reach.step ['#','b','c'] 'd' h3 (by decide) (by decide)
    exact h4
  · have hdist : Jabberwocky.length_distribution Jabberwocky.sqrtQ
        [['a','b','c','d'], ['b','c','d','a']] = [0, 0, 0, 0, Jabberwocky.sqrtQ 1] := by
      norm_num [Jabberwocky.length_distribution, Jabberwocky.maxWordLen,
        Jabberwocky.cumBuild, Jabberwocky.lenCount, List.filter]
    have hentry : Jabberwocky.modelEntry [['a','b','c','d'], ['b','c','d','a']]
        ['c','d'] = [('$', 1), ('a', 1)] := by decide
    have hcode : Jabberwocky.weightsAt Jabberwocky.sqrtQ
        [['a','b','c','d'], ['b','c','d','a']] ['#','b','c','d'] =
        [('$', 1), ('a', 1)] := by
      unfold Jabberwocky.weightsAt
      rw [show Jabberwocky.lastN Jabberwocky.CONTEXT_SIZE ['#','b','c','d'] =
        ['c','d'] from rfl, hentry]
      rw [List.map_cons, List.map_cons, List.map_nil, if_pos (by decide),
        if_neg (by decide)]
      rw [show Jabberwocky.termFactor (Jabberwocky.length_distribution
        Jabberwocky.sqrtQ [['a','b','c','d'], ['b','c','d','a']])
        (['#','b','c','d'] : Str).length = Jabberwocky.sqrtQ 1 from by
          rw [Jabberwocky.termFactor, hdist]
          norm_num]
      rw [Jabberwocky.sqrtQ_one]
      norm_num
    have hclaim : Jabberwocky.claimedWeightsAt Jabberwocky.sqrtQ
        [['a','b','c','d'], ['b','c','d','a']] ['#','b','c','d'] =
        [('$', 0), ('a', 1)] := by
      unfold Jabberwocky.claimedWeightsAt
      rw [show Jabberwocky.lastN Jabberwocky.CONTEXT_SIZE ['#','b','c','d'] =
        ['c','d'] from rfl, hentry]
      rw [List.map_cons, List.map_cons, List.map_nil, if_pos (by decide),
        if_neg (by decide)]
      rw [show Jabberwocky.termFactor (Jabberwocky.length_distribution
        Jabberwocky.sqrtQ [['a','b','c','d'], ['b','c','d','a']])
        ((['#','b','c','d'] : Str).length - 1) = 0 from by
          rw [Jabberwocky.termFactor, hdist]
          norm_num]
      norm_num
    rw [hcode, hclaim]
    intro h
    have := List.head_eq_of_cons_eq h
    simp at this

/-- C10 amended: at every reachable state of the generation loop, the
terminator's candidate weight is its count multiplied by the cumulative
length-distribution value indexed at one more than the number of
non-sentinel characters produced so far (the code indexes `distribution`
with `len(word)`, which includes the start sentinel); the table has one
entry per length from 0 to the observed maximum, and for any generated
length at or beyond that maximum the factor saturates at the table's final
value. -/
theorem c10_term_factor_amended (s : ℚ → ℚ) (wl : List Str) (word : Str)
    (h : Jabberwocky.Reach wl word) :
    Jabberwocky.weightsAt s wl word =
      (Jabberwocky.modelEntry wl
        (Jabberwocky.lastN Jabberwocky.CONTEXT_SIZE word)).map
        (fun p => if p.1 = Jabberwocky.TERMINATOR
          then (p.1, (p.2 : ℚ) * Jabberwocky.termFactor
            (Jabberwocky.length_distribution s wl) ((word.length - 1) + 1))
          else (p.1, (p.2 : ℚ))) ∧
    (Jabberwocky.length_distribution s wl).length =
      Jabberwocky.maxWordLen wl + 1 ∧
    (∀ g, Jabberwocky.maxWordLen wl ≤ g →
      Jabberwocky.termFactor (Jabberwocky.length_distribution s wl) (g + 1) =
        (Jabberwocky.length_distribution s wl).getLastD 0) := by
  have hne : word ≠ [] := Jabberwocky.reach_ne_nil wl word h
  have hlen : (Jabberwocky.length_distribution s wl).length =
      Jabberwocky.maxWordLen wl + 1 :=
    Jabberwocky.cumBuild_length s wl (Jabberwocky.maxWordLen wl)
  refine ⟨?_, hlen, ?_⟩
  · have hx : (word.length - 1) + 1 = word.length := by
      have : 0 < word.length := List.length_pos.mpr hne
      omega
    rw [hx]
    rfl
  · intro g hg
    rw [Jabberwocky.termFactor, if_neg (by omega)]

/-- C10 witness: the amended statement applied at the start state of the
model of `["abc"]` — the table has `maxWordLen + 1` entries. -/
theorem c10_term_factor_amended_witness :
    (Jabberwocky.length_distribution Jabberwocky.sqrtQ [['a','b','c']]).length =
      Jabberwocky.maxWordLen [['a','b','c']] + 1 :=
  (c10_term_factor_amended Jabberwocky.sqrtQ [['a','b','c']]
    [Jabberwocky.INITIATOR] Jabberwocky.Reach.start).2.1

end DailyGreeting
